import Mathlib

/-!
Verification development for the tex-to-video repository.

The embedding models the two source modules that carry the control flow:

* the generation service (`fileToBase64`, `LOADING_MESSAGES`, `generateVideo`,
  the poll loop and the download step), and
* the application component (`handleGenerateVideo`, the reset handler, and the
  derived workflow phase of the rendered UI).

External effects (the file reader, the remote generation API, the HTTP fetch)
are passed in as explicit oracles; `generateVideo` returns the ordered trace of
observable events it performs together with its outcome, so that temporal
claims about the workflow become statements about the trace list.
-/

/-! ## Media encoder: fileToBase64 -/

/-- Outcome of the FileReader used by `fileToBase64`: `onload` fires with a
string result, `onload` fires with a non-string result, or `onerror` fires
with an error (carrying a message). -/
inductive ReaderResult where
  | str : String → ReaderResult
  | nonStr : ReaderResult
  | failed : String → ReaderResult
deriving DecidableEq

/-- JavaScript `s.split(',')` on a character list: splits at every comma,
`"".split(',') = [""]`. -/
def splitComma : List Char → List (List Char)
  | [] => [[]]
  | c :: rest =>
    if c = ',' then [] :: splitComma rest
    else
      match splitComma rest with
      | [] => [[c]]
      | h :: t => (c :: h) :: t

/-- `fileToBase64`: resolves with `reader.result.split(',')[1]` when the reader
result is a string (the element may be absent, as `[1]` is in JavaScript when
there is no comma, hence the `Option`), rejects with a fixed message on a
non-string result, and rejects with the reader error on `onerror`. -/
def fileToBase64 : ReaderResult → Except String (Option String)
  | ReaderResult.str s => Except.ok (((splitComma s.data).get? 1).map String.mk)
  | ReaderResult.nonStr => Except.error "Failed to read file as base64 string."
  | ReaderResult.failed e => Except.error e

/-! ## Generation service data model -/

/-- The `video` field of a generated-video descriptor: may carry a `uri`. -/
structure VideoRef where
  uri : Option String
deriving DecidableEq

/-- One generated-video descriptor of the operation response. -/
structure GeneratedVideo where
  video : Option VideoRef
deriving DecidableEq

/-- The `response` payload of a finished operation. -/
structure OpResponse where
  generatedVideos : Option (List GeneratedVideo)
deriving DecidableEq

/-- A remote long-running operation handle: a completion flag and an optional
response payload. -/
structure Operation where
  done : Bool
  response : Option OpResponse
deriving DecidableEq

/-- `operation.response?.generatedVideos?.[0]?.video?.uri` — the optional-chain
that resolves the download link from a finished operation. -/
def downloadLink (op : Operation) : Option String :=
  ((((op.response.bind fun r => r.generatedVideos).bind fun vs => vs.head?).bind
    fun gv => gv.video).bind fun v => v.uri)

/-- The fixed rotating list of ten progress messages. -/
def LOADING_MESSAGES : List String := [
  "Warming up the video engine...",
  "Contacting creative AI director...",
  "Storyboarding your prompt...",
  "Setting up the virtual cameras...",
  "Rendering initial frames (this can take a few minutes)...",
  "Applying cinematic lighting and effects...",
  "Your vision is materializing, please wait...",
  "Enhancing color and texture...",
  "Adding the final touches to your masterpiece...",
  "Almost there, compiling the final video file...",
]

/-- Downloaded video bytes (the blob produced by the fetch response). -/
structure Blob where
  data : List Nat
deriving DecidableEq

/-- A locally dereferenceable reference to downloaded bytes, as produced by
`URL.createObjectURL`. -/
structure ObjectURL where
  blob : Blob
deriving DecidableEq

/-- `URL.createObjectURL`: wraps a blob into a local reference. -/
def createObjectURL (b : Blob) : ObjectURL := ObjectURL.mk b

/-- Observable events of one `generateVideo` run, in order:
the encode step resolving, a progress callback, the submit call, a check of
`operation.done` (the `while` condition), the ten-second wait, a
`getVideosOperation` call carrying the handle it polls, and the fetch of a URL. -/
inductive Event where
  | encoded : Event
  | progress : String → Event
  | submitEv : Event
  | observe : Bool → Event
  | waitEv : Event
  | pollEv : Operation → Event
  | fetchEv : String → Event
deriving DecidableEq

/-- Outcome of the poll loop: the loop exited with a done handle, a poll call
rejected, or the modelling fuel ran out before `done` was observed. -/
inductive PollOutcome where
  | finished : Operation → PollOutcome
  | errored : String → PollOutcome
  | fuelOut : PollOutcome
deriving DecidableEq

/-- The `while (!operation.done)` loop of `generateVideo`. Each iteration
emits the progress message at index `pollCount % LOADING_MESSAGES.length`,
increments `pollCount`, waits, and polls the current handle; `oracle n` is the
result of the poll performed when `pollCount` had value `n`. `fuel` bounds the
number of iterations the model unrolls. -/
def pollLoop (fuel : Nat) (op : Operation) (oracle : Nat → Except String Operation)
    (pollCount : Nat) : List Event × PollOutcome :=
  if op.done then
    ([Event.observe true], PollOutcome.finished op)
  else
    match fuel with
    | 0 => ([Event.observe false], PollOutcome.fuelOut)
    | fuel' + 1 =>
      match oracle pollCount with
      | Except.error e =>
        ([Event.observe false,
          Event.progress (LOADING_MESSAGES.getD (pollCount % LOADING_MESSAGES.length) ""),
          Event.waitEv, Event.pollEv op], PollOutcome.errored e)
      | Except.ok next =>
        let rest := pollLoop fuel' next oracle (pollCount + 1)
        (Event.observe false ::
          Event.progress (LOADING_MESSAGES.getD (pollCount % LOADING_MESSAGES.length) "") ::
          Event.waitEv :: Event.pollEv op :: rest.1, rest.2)

/-- The fixed trace prefix of every run that gets past the encode step:
the encode resolves, `LOADING_MESSAGES[0]` is emitted, then the submit call
(`ai.models.generateVideos`) is performed. -/
def genPre : List Event :=
  [Event.encoded, Event.progress (LOADING_MESSAGES.getD 0 ""), Event.submitEv]

/-- `generateVideo`, as the trace of events it performs together with its
outcome (`none` when the modelling fuel ran out inside the poll loop).
`rr` is the file-reader outcome feeding `fileToBase64`; `submitRes` the result
of the submit call; `oracle` the successive poll results; `fetchOk` and
`statusText` the `ok` flag and `statusText` of the fetch response; `videoBlob`
its body. The returned URL on success is `URL.createObjectURL` of the blob. -/
def generateVideo (apiKey : String) (rr : ReaderResult)
    (submitRes : Except String Operation) (oracle : Nat → Except String Operation)
    (fuel : Nat) (fetchOk : Bool) (statusText : String) (videoBlob : Blob) :
    List Event × Option (Except String ObjectURL) :=
  match fileToBase64 rr with
  | Except.error e => ([], some (Except.error e))
  | Except.ok _ =>
    match submitRes with
    | Except.error e => (genPre, some (Except.error e))
    | Except.ok submitOp =>
      match pollLoop fuel submitOp oracle 1 with
      | (pevs, PollOutcome.fuelOut) => (genPre ++ pevs, none)
      | (pevs, PollOutcome.errored e) => (genPre ++ pevs, some (Except.error e))
      | (pevs, PollOutcome.finished finalOp) =>
        match downloadLink finalOp with
        | none =>
          (genPre ++ pevs,
            some (Except.error "Video generation completed, but no download link was found."))
        | some link =>
          let evs := genPre ++ pevs ++
            [Event.progress "Downloading your generated video...",
             Event.fetchEv (link ++ "&key=" ++ apiKey)]
          if fetchOk then
            (evs, some (Except.ok (createObjectURL videoBlob)))
          else
            (evs, some (Except.error ("Failed to download video: " ++ statusText)))

/-- The progress messages of a trace that are immediately followed by a wait:
the message shown while the given ten-second delay runs. -/
def waitMsgs : List Event → List String
  | [] => []
  | Event.progress m :: Event.waitEv :: rest => m :: waitMsgs rest
  | _ :: rest => waitMsgs rest

/-- The list of progress messages the poll loop emits (one per iteration),
mirroring `pollLoop`. -/
def loopMsgs (fuel : Nat) (op : Operation) (oracle : Nat → Except String Operation)
    (pollCount : Nat) : List String :=
  if op.done then []
  else
    match fuel with
    | 0 => []
    | fuel' + 1 =>
      match oracle pollCount with
      | Except.error _ => [LOADING_MESSAGES.getD (pollCount % LOADING_MESSAGES.length) ""]
      | Except.ok next =>
        LOADING_MESSAGES.getD (pollCount % LOADING_MESSAGES.length) "" ::
          loopMsgs fuel' next oracle (pollCount + 1)

/-! ## Application state machine (App.tsx) -/

/-- JavaScript substring containment at the character-list level:
`listStarts sub l` is `sub` being a prefix of `l`. -/
def listStarts : List Char → List Char → Bool
  | [], _ => true
  | _ :: _, [] => false
  | a :: as, b :: bs => a == b && listStarts as bs

/-- `listHasSub sub l`: `sub` occurs contiguously somewhere in `l`. -/
def listHasSub (sub : List Char) : List Char → Bool
  | [] => listStarts sub []
  | l@(_ :: rest) => listStarts sub l || listHasSub sub rest

/-- JavaScript `s.includes(sub)`. -/
def strIncludes (s sub : String) : Bool := listHasSub sub.data s.data

/-- JavaScript `m || d` for the error-message field: `null`/`undefined` and the
empty string are falsy and give the default. -/
def jsOr (m : Option String) (d : String) : String :=
  match m with
  | none => d
  | some s => if s = "" then d else s

/-- The React state of the `App` component (the fields the workflow reads and
writes). The aspect-ratio selection is carried as its literal string value. -/
structure AppState where
  apiKeySelected : Bool
  prompt : String
  imageFile : Option String
  previewUrl : Option String
  aspect : String
  isLoading : Bool
  loadingMessage : String
  generatedVideoUrl : Option String
  error : Option String
deriving DecidableEq

/-- Outcome of the awaited `generateVideo` call as seen by
`handleGenerateVideo`: it resolved with a video URL, or it threw an error whose
`message` property is the given optional string. -/
inductive GenOutcome where
  | success : String → GenOutcome
  | failure : Option String → GenOutcome
deriving DecidableEq

/-- The authorization-failure signature recognized by the catch handler. -/
def notFoundSig : String := "Requested entity was not found"

/-- The message surfaced when the signature matches. -/
def invalidKeyMsg : String :=
  "Your API key is invalid or has been revoked. Please select a new key."

/-- `handleGenerateVideo`: precondition checks, then the try/catch/finally
around the awaited `generateVideo` call. `outcome` is how that call ended and
`lmDuring` the last loading message its progress callbacks set. Returns the
resulting state and whether `generateVideo` was actually invoked. -/
def handleGenerateVideo (s : AppState) (outcome : GenOutcome) (lmDuring : String) :
    AppState × Bool :=
  if s.imageFile.isNone then
    ({ s with error := some "Please upload an image first." }, false)
  else if !s.apiKeySelected then
    ({ s with error := some "Please select an API key before generating a video." }, false)
  else
    let s1 := { s with isLoading := true, error := none, generatedVideoUrl := none,
                       loadingMessage := lmDuring }
    let s2 :=
      match outcome with
      | GenOutcome.success url => { s1 with generatedVideoUrl := some url }
      | GenOutcome.failure msg =>
        let errorMessage := jsOr msg "An unknown error occurred."
        if strIncludes errorMessage notFoundSig then
          { s1 with apiKeySelected := false, error := some invalidKeyMsg }
        else
          { s1 with error := some errorMessage }
    ({ s2 with isLoading := false, loadingMessage := "" }, true)

/-- The reset handler (the `Create Another Video` button's onClick): clears the
generated video, the image and its preview, the prompt, and the error. -/
def resetApp (s : AppState) : AppState :=
  { s with generatedVideoUrl := none, imageFile := none, previewUrl := none,
           prompt := "", error := none }

/-- The workflow phase the rendered UI presents, derived from the state exactly
as `App`'s JSX branches on it: the credential prompt overlays everything when
no key is selected; otherwise a generated video shows the ready view, else the
loading indicator, else an error banner, else the idle upload view. -/
inductive WorkflowPhase where
  | awaitingCredential : WorkflowPhase
  | ready : WorkflowPhase
  | loading : WorkflowPhase
  | failed : WorkflowPhase
  | idle : WorkflowPhase
deriving DecidableEq

/-- Classify a state into its workflow phase. -/
def phaseOf (s : AppState) : WorkflowPhase :=
  if !s.apiKeySelected then WorkflowPhase.awaitingCredential
  else if s.generatedVideoUrl.isSome then WorkflowPhase.ready
  else if s.isLoading then WorkflowPhase.loading
  else if s.error.isSome then WorkflowPhase.failed
  else WorkflowPhase.idle

/-- The credential re-acquisition prompt (`ApiKeySelector`) is rendered exactly
when no key is selected. -/
def showsKeySelector (s : AppState) : Bool := !s.apiKeySelected

/-! ## Helper lemmas -/

theorem waitMsgs_nil : waitMsgs [] = [] := rfl

theorem waitMsgs_encoded (l : List Event) : waitMsgs (Event.encoded :: l) = waitMsgs l := rfl

theorem waitMsgs_submit (l : List Event) : waitMsgs (Event.submitEv :: l) = waitMsgs l := rfl

theorem waitMsgs_observe (b : Bool) (l : List Event) :
    waitMsgs (Event.observe b :: l) = waitMsgs l := rfl

theorem waitMsgs_wait (l : List Event) : waitMsgs (Event.waitEv :: l) = waitMsgs l := rfl

theorem waitMsgs_poll (op : Operation) (l : List Event) :
    waitMsgs (Event.pollEv op :: l) = waitMsgs l := rfl

theorem waitMsgs_fetch (u : String) (l : List Event) :
    waitMsgs (Event.fetchEv u :: l) = waitMsgs l := rfl

theorem waitMsgs_progress_wait (m : String) (l : List Event) :
    waitMsgs (Event.progress m :: Event.waitEv :: l) = m :: waitMsgs l := rfl

theorem waitMsgs_progress_one (m : String) : waitMsgs [Event.progress m] = [] := rfl

theorem waitMsgs_progress_fetch (m u : String) (l : List Event) :
    waitMsgs (Event.progress m :: Event.fetchEv u :: l) = waitMsgs l := rfl

theorem waitMsgs_progress_submit (m : String) (l : List Event) :
    waitMsgs (Event.progress m :: Event.submitEv :: l) = waitMsgs l := rfl

/-- Every handle the poll loop passes to `getVideosOperation` has `done = false`. -/
theorem pollLoop_polls_not_done (fuel : Nat) :
    ∀ (op : Operation) (oracle : Nat → Except String Operation) (c : Nat) (op' : Operation),
      Event.pollEv op' ∈ (pollLoop fuel op oracle c).1 → op'.done = false := by
  induction fuel with
  | zero =>
    intro op oracle c op' h
    by_cases hd : op.done <;> simp [pollLoop, hd] at h
  | succ n ih =>
    intro op oracle c op' h
    by_cases hd : op.done
    · simp [pollLoop, hd] at h
    · cases ho : oracle c with
      | error e =>
        simp [pollLoop, hd, ho] at h
        subst h
        simpa using hd
      | ok next =>
        simp [pollLoop, hd, ho] at h
        rcases h with h | h
        · subst h
          simpa using hd
        · exact ih next oracle (c + 1) op' h

/-- When the poll loop stops with a finished handle, that handle has
`done = true` and the last event of the loop trace is the observation of the
true flag. -/
theorem pollLoop_finished_shape (fuel : Nat) :
    ∀ (op : Operation) (oracle : Nat → Except String Operation) (c : Nat) (op' : Operation),
      (pollLoop fuel op oracle c).2 = PollOutcome.finished op' →
      op'.done = true ∧
        ∃ pre, (pollLoop fuel op oracle c).1 = pre ++ [Event.observe true] := by
  induction fuel with
  | zero =>
    intro op oracle c op' h
    by_cases hd : op.done
    · have h2 : op = op' := by simpa [pollLoop, hd] using h
      subst h2
      exact ⟨hd, ⟨[], by simp [pollLoop, hd]⟩⟩
    · simp [pollLoop, hd] at h
  | succ n ih =>
    intro op oracle c op' h
    by_cases hd : op.done
    · have h2 : op = op' := by simpa [pollLoop, hd] using h
      subst h2
      exact ⟨hd, ⟨[], by simp [pollLoop, hd]⟩⟩
    · cases ho : oracle c with
      | error e => simp [pollLoop, hd, ho] at h
      | ok next =>
        simp only [pollLoop, hd, ho] at h ⊢
        simp at h
        obtain ⟨h1, pre, hpre⟩ := ih next oracle (c + 1) op' h
        refine ⟨h1, Event.observe false ::
          Event.progress (LOADING_MESSAGES.getD (c % LOADING_MESSAGES.length) "") ::
          Event.waitEv :: Event.pollEv op :: pre, ?_⟩
        simp [hpre]

/-- The poll loop never performs a fetch. -/
theorem pollLoop_no_fetch (fuel : Nat) :
    ∀ (op : Operation) (oracle : Nat → Except String Operation) (c : Nat) (u : String),
      Event.fetchEv u ∉ (pollLoop fuel op oracle c).1 := by
  induction fuel with
  | zero =>
    intro op oracle c u h
    by_cases hd : op.done <;> simp [pollLoop, hd] at h
  | succ n ih =>
    intro op oracle c u h
    by_cases hd : op.done
    · simp [pollLoop, hd] at h
    · cases ho : oracle c with
      | error e => simp [pollLoop, hd, ho] at h
      | ok next =>
        simp [pollLoop, hd, ho] at h
        exact ih next oracle (c + 1) u h

/-- The wait-adjacent progress messages of the loop trace, followed by anything
that is not itself a wait, are exactly `loopMsgs`. -/
theorem waitMsgs_pollLoop (fuel : Nat) :
    ∀ (op : Operation) (oracle : Nat → Except String Operation) (c : Nat) (tail : List Event),
      waitMsgs ((pollLoop fuel op oracle c).1 ++ tail) =
        loopMsgs fuel op oracle c ++ waitMsgs tail := by
  induction fuel with
  | zero =>
    intro op oracle c tail
    by_cases hd : op.done <;>
      simp [pollLoop, loopMsgs, hd, waitMsgs_observe]
  | succ n ih =>
    intro op oracle c tail
    by_cases hd : op.done
    · simp [pollLoop, loopMsgs, hd, waitMsgs_observe]
    · cases ho : oracle c with
      | error e =>
        simp [pollLoop, loopMsgs, hd, ho, waitMsgs_observe, waitMsgs_progress_wait,
          waitMsgs_poll]
      | ok next =>
        simp only [pollLoop, loopMsgs, hd, ho, Bool.false_eq_true, if_false, List.cons_append,
          List.append_assoc]
        rw [waitMsgs_observe, waitMsgs_progress_wait, waitMsgs_poll, ih]

/-- The `i`-th message of `loopMsgs` is the entry of `LOADING_MESSAGES` at
index `(c + i) % LOADING_MESSAGES.length`. -/
theorem loopMsgs_get (fuel : Nat) :
    ∀ (op : Operation) (oracle : Nat → Except String Operation) (c i : Nat) (m : String),
      (loopMsgs fuel op oracle c)[i]? = some m →
      m = LOADING_MESSAGES.getD ((c + i) % LOADING_MESSAGES.length) "" := by
  induction fuel with
  | zero =>
    intro op oracle c i m h
    by_cases hd : op.done <;> simp [loopMsgs, hd] at h
  | succ n ih =>
    intro op oracle c i m h
    by_cases hd : op.done
    · simp [loopMsgs, hd] at h
    · cases ho : oracle c with
      | error e =>
        simp [loopMsgs, hd, ho] at h
        cases i with
        | zero =>
          simp at h
          rw [← h]
          simp [List.getD]
        | succ j => simp at h
      | ok next =>
        simp only [loopMsgs, hd, ho, Bool.false_eq_true, if_false] at h
        cases i with
        | zero =>
          simp at h
          rw [← h]
          simp [List.getD]
        | succ j =>
          simp at h
          have hm := ih next oracle (c + 1) j m h
          rw [hm]
          have hidx : c + 1 + j = c + (j + 1) := by omega
          rw [hidx]

/-- Splitting a comma-free character list yields that list as the only chunk. -/
theorem splitComma_no_comma (l : List Char) (h : ',' ∉ l) : splitComma l = [l] := by
  induction l with
  | nil => rfl
  | cons c rest ih =>
    have hc : ¬(c = ',') := fun hcc => h (by simp [hcc])
    have hr : ',' ∉ rest := fun hm => h (List.mem_cons_of_mem _ hm)
    simp [splitComma, hc, ih hr]

/-- Splitting at the first comma: a comma-free head becomes the first chunk. -/
theorem splitComma_append (h t : List Char) (hh : ',' ∉ h) :
    splitComma (h ++ ',' :: t) = h :: splitComma t := by
  induction h with
  | nil => simp [splitComma]
  | cons c rest ih =>
    have hc : ¬(c = ',') := fun hcc => hh (by simp [hcc])
    have hr : ',' ∉ rest := fun hm => hh (List.mem_cons_of_mem _ hm)
    simp [splitComma, hc, ih hr]

/-! ## Claim theorems -/

/-- C5: if no image is selected, or the credential gate reports inactive, the
submit action only sets the corresponding validation message and returns:
`generateVideo` is not called and no other field of the state changes (in
particular the loading flag is untouched, so the loading state is not
entered). -/
theorem claim_precondition_enforcement (s : AppState) (outcome : GenOutcome) (lm : String)
    (h : s.imageFile = none ∨ s.apiKeySelected = false) :
    (handleGenerateVideo s outcome lm).2 = false ∧
    (handleGenerateVideo s outcome lm).1 =
      { s with error := some (if s.imageFile.isNone then
          "Please upload an image first."
        else
          "Please select an API key before generating a video.") } := by
  rcases h with h | h
  · simp [handleGenerateVideo, h]
  · by_cases hi : s.imageFile.isNone
    · simp [handleGenerateVideo, hi]
    · simp [handleGenerateVideo, hi, h]

/-- C5 witness: a concrete state with no image selected. -/
theorem claim_precondition_enforcement_witness :
    ((none : Option String) = none ∨ false = false) ∧
    ((handleGenerateVideo
        { apiKeySelected := true, prompt := "p", imageFile := none, previewUrl := none,
          aspect := "16:9", isLoading := false, loadingMessage := "",
          generatedVideoUrl := none, error := none }
        (GenOutcome.success "u") "lm").2 = false ∧
      (handleGenerateVideo
        { apiKeySelected := true, prompt := "p", imageFile := none, previewUrl := none,
          aspect := "16:9", isLoading := false, loadingMessage := "",
          generatedVideoUrl := none, error := none }
        (GenOutcome.success "u") "lm").1 =
        { apiKeySelected := true, prompt := "p", imageFile := none, previewUrl := none,
          aspect := "16:9", isLoading := false, loadingMessage := "",
          generatedVideoUrl := none,
          error := some (if (none : Option String).isNone then
            "Please upload an image first."
          else
            "Please select an API key before generating a video.") }) :=
  ⟨Or.inl rfl, claim_precondition_enforcement _ (GenOutcome.success "u") "lm" (Or.inl rfl)⟩

/-- C10: whenever the preconditions pass, the attempt ends with the loading
flag reset to `false` and the loading message reset to the empty string,
whatever the outcome of the `generateVideo` call was. -/
theorem claim_loading_always_cleared (s : AppState) (outcome : GenOutcome) (lm : String)
    (himg : s.imageFile.isNone = false) (hkey : s.apiKeySelected = true) :
    (handleGenerateVideo s outcome lm).2 = true ∧
    (handleGenerateVideo s outcome lm).1.isLoading = false ∧
    (handleGenerateVideo s outcome lm).1.loadingMessage = "" := by
  cases outcome with
  | success url => simp [handleGenerateVideo, himg, hkey]
  | failure msg =>
    by_cases hm : strIncludes (jsOr msg "An unknown error occurred.") notFoundSig <;>
      simp [handleGenerateVideo, himg, hkey, hm]

/-- C10 witness: a concrete failing attempt still clears the loading state. -/
theorem claim_loading_always_cleared_witness :
    ((some "img" : Option String).isNone = false ∧ true = true) ∧
    ((handleGenerateVideo
        { apiKeySelected := true, prompt := "p", imageFile := some "img",
          previewUrl := some "u", aspect := "9:16", isLoading := false,
          loadingMessage := "", generatedVideoUrl := none, error := none }
        (GenOutcome.failure (some "network down")) "Rendering...").2 = true ∧
      (handleGenerateVideo
        { apiKeySelected := true, prompt := "p", imageFile := some "img",
          previewUrl := some "u", aspect := "9:16", isLoading := false,
          loadingMessage := "", generatedVideoUrl := none, error := none }
        (GenOutcome.failure (some "network down")) "Rendering...").1.isLoading = false ∧
      (handleGenerateVideo
        { apiKeySelected := true, prompt := "p", imageFile := some "img",
          previewUrl := some "u", aspect := "9:16", isLoading := false,
          loadingMessage := "", generatedVideoUrl := none, error := none }
        (GenOutcome.failure (some "network down")) "Rendering...").1.loadingMessage = "") :=
  ⟨⟨rfl, rfl⟩, claim_loading_always_cleared _ (GenOutcome.failure (some "network down"))
    "Rendering..." rfl rfl⟩

/-- C4: a failure whose message contains the authorization-failure signature
forces the key gate inactive (so the selector prompt is rendered) and surfaces
the re-acquisition message; any other failure leaves the gate untouched and
surfaces the failure message itself. -/
theorem claim_credential_invalidation (s : AppState) (msg : Option String) (lm : String)
    (himg : s.imageFile.isNone = false) (hkey : s.apiKeySelected = true) :
    (strIncludes (jsOr msg "An unknown error occurred.") notFoundSig = true →
      (handleGenerateVideo s (GenOutcome.failure msg) lm).1.apiKeySelected = false ∧
      showsKeySelector (handleGenerateVideo s (GenOutcome.failure msg) lm).1 = true ∧
      (handleGenerateVideo s (GenOutcome.failure msg) lm).1.error = some invalidKeyMsg) ∧
    (strIncludes (jsOr msg "An unknown error occurred.") notFoundSig = false →
      (handleGenerateVideo s (GenOutcome.failure msg) lm).1.apiKeySelected =
        s.apiKeySelected ∧
      (handleGenerateVideo s (GenOutcome.failure msg) lm).1.error =
        some (jsOr msg "An unknown error occurred.")) := by
  constructor
  · intro hm
    simp [handleGenerateVideo, himg, hkey, hm, showsKeySelector]
  · intro hm
    simp [handleGenerateVideo, himg, hkey, hm]

/-- C4 witness: a concrete message carrying the signature flips the gate. -/
theorem claim_credential_invalidation_witness :
    ((some "img" : Option String).isNone = false ∧
      strIncludes (jsOr (some "Error: Requested entity was not found.")
        "An unknown error occurred.") notFoundSig = true) ∧
    ((handleGenerateVideo
        { apiKeySelected := true, prompt := "", imageFile := some "img",
          previewUrl := some "u", aspect := "16:9", isLoading := false,
          loadingMessage := "", generatedVideoUrl := none, error := none }
        (GenOutcome.failure (some "Error: Requested entity was not found.")) "").1.apiKeySelected
        = false ∧
      showsKeySelector (handleGenerateVideo
        { apiKeySelected := true, prompt := "", imageFile := some "img",
          previewUrl := some "u", aspect := "16:9", isLoading := false,
          loadingMessage := "", generatedVideoUrl := none, error := none }
        (GenOutcome.failure (some "Error: Requested entity was not found.")) "").1 = true ∧
      (handleGenerateVideo
        { apiKeySelected := true, prompt := "", imageFile := some "img",
          previewUrl := some "u", aspect := "16:9", isLoading := false,
          loadingMessage := "", generatedVideoUrl := none, error := none }
        (GenOutcome.failure (some "Error: Requested entity was not found.")) "").1.error =
        some invalidKeyMsg) :=
  ⟨⟨rfl, by decide⟩,
    (claim_credential_invalidation
      { apiKeySelected := true, prompt := "", imageFile := some "img",
        previewUrl := some "u", aspect := "16:9", isLoading := false,
        loadingMessage := "", generatedVideoUrl := none, error := none }
      (some "Error: Requested entity was not found.") "" rfl rfl).1 (by decide)⟩

/-- C7: resetting from the ready phase or from the failed phase lands in the
idle phase and clears the prompt, the image and its preview, the generated
video reference, and the error. The loading flag is false in both phases
(every finished attempt resets it, see the C10 theorem). -/
theorem claim_reset_idempotence (s : AppState)
    (h : phaseOf s = WorkflowPhase.ready ∨ phaseOf s = WorkflowPhase.failed)
    (hl : s.isLoading = false) :
    phaseOf (resetApp s) = WorkflowPhase.idle ∧
    (resetApp s).prompt = "" ∧ (resetApp s).imageFile = none ∧
    (resetApp s).previewUrl = none ∧ (resetApp s).generatedVideoUrl = none ∧
    (resetApp s).error = none := by
  cases hk : s.apiKeySelected with
  | false => simp [phaseOf, hk] at h
  | true =>
    refine ⟨?_, rfl, rfl, rfl, rfl, rfl⟩
    simp [phaseOf, resetApp, hk, hl]

/-- C7 witness: resetting a concrete ready state lands in idle. -/
theorem claim_reset_idempotence_witness :
    (phaseOf
        { apiKeySelected := true, prompt := "a cat", imageFile := some "img",
          previewUrl := some "u", aspect := "16:9", isLoading := false,
          loadingMessage := "", generatedVideoUrl := some "blob:v", error := none } =
      WorkflowPhase.ready ∨
     phaseOf
        { apiKeySelected := true, prompt := "a cat", imageFile := some "img",
          previewUrl := some "u", aspect := "16:9", isLoading := false,
          loadingMessage := "", generatedVideoUrl := some "blob:v", error := none } =
      WorkflowPhase.failed) ∧
    (phaseOf (resetApp
        { apiKeySelected := true, prompt := "a cat", imageFile := some "img",
          previewUrl := some "u", aspect := "16:9", isLoading := false,
          loadingMessage := "", generatedVideoUrl := some "blob:v", error := none }) =
      WorkflowPhase.idle ∧
     (resetApp
        { apiKeySelected := true, prompt := "a cat", imageFile := some "img",
          previewUrl := some "u", aspect := "16:9", isLoading := false,
          loadingMessage := "", generatedVideoUrl := some "blob:v", error := none }).prompt =
      "" ∧
     (resetApp
        { apiKeySelected := true, prompt := "a cat", imageFile := some "img",
          previewUrl := some "u", aspect := "16:9", isLoading := false,
          loadingMessage := "", generatedVideoUrl := some "blob:v", error := none }).imageFile =
      none ∧
     (resetApp
        { apiKeySelected := true, prompt := "a cat", imageFile := some "img",
          previewUrl := some "u", aspect := "16:9", isLoading := false,
          loadingMessage := "", generatedVideoUrl := some "blob:v", error := none }).previewUrl =
      none ∧
     (resetApp
        { apiKeySelected := true, prompt := "a cat", imageFile := some "img",
          previewUrl := some "u", aspect := "16:9", isLoading := false,
          loadingMessage := "",
          generatedVideoUrl := some "blob:v", error := none }).generatedVideoUrl = none ∧
     (resetApp
        { apiKeySelected := true, prompt := "a cat", imageFile := some "img",
          previewUrl := some "u", aspect := "16:9", isLoading := false,
          loadingMessage := "", generatedVideoUrl := some "blob:v", error := none }).error =
      none) :=
  ⟨Or.inl rfl, claim_reset_idempotence _ (Or.inl rfl) rfl⟩

/-- C8: for a readable file the encoder resolves with only the raw payload,
the data-URI envelope up to and including the separator comma stripped; a
reader error or a non-string reader result rejects instead of resolving. -/
theorem claim_encoder_strips_envelope (header payload : List Char)
    (hh : ',' ∉ header) (hp : ',' ∉ payload) :
    fileToBase64 (ReaderResult.str (String.mk (header ++ ',' :: payload))) =
      Except.ok (some (String.mk payload)) ∧
    (∀ e, fileToBase64 (ReaderResult.failed e) = Except.error e) ∧
    fileToBase64 ReaderResult.nonStr =
      Except.error "Failed to read file as base64 string." := by
  refine ⟨?_, fun e => rfl, rfl⟩
  simp [fileToBase64, splitComma_append header payload hh, splitComma_no_comma payload hp]

/-- C8 witness: a concrete data URI is stripped to its base64 payload. -/
theorem claim_encoder_strips_envelope_witness :
    (',' ∉ "data:image/png;base64".toList ∧ ',' ∉ "QUJD".toList) ∧
    fileToBase64 (ReaderResult.str
        (String.mk ("data:image/png;base64".toList ++ ',' :: "QUJD".toList))) =
      Except.ok (some (String.mk "QUJD".toList)) :=
  ⟨⟨by decide, by decide⟩,
    (claim_encoder_strips_envelope _ _ (by decide) (by decide)).1⟩

/-- The fixed prefix does not contribute wait-adjacent messages. -/
theorem waitMsgs_genPre_append (l : List Event) :
    waitMsgs (genPre ++ l) = waitMsgs l := rfl

/-- The download progress message is not wait-adjacent. -/
theorem waitMsgs_download_tail (m u : String) :
    waitMsgs [Event.progress m, Event.fetchEv u] = [] := rfl

/-- `waitMsgs` of a full loop trace alone. -/
theorem waitMsgs_pollLoop_nil (fuel : Nat) (op : Operation)
    (oracle : Nat → Except String Operation) (c : Nat) :
    waitMsgs (pollLoop fuel op oracle c).1 = loopMsgs fuel op oracle c := by
  have h := waitMsgs_pollLoop fuel op oracle c []
  simpa [waitMsgs_nil] using h

/-- Every run whose encode step resolves produces a trace starting with the
fixed prefix `genPre`. -/
theorem generateVideo_trace_shape (apiKey : String) (rr : ReaderResult)
    (submitRes : Except String Operation) (oracle : Nat → Except String Operation)
    (fuel : Nat) (fetchOk : Bool) (st : String) (vb : Blob) (b : Option String)
    (hrr : fileToBase64 rr = Except.ok b) :
    ∃ rest, (generateVideo apiKey rr submitRes oracle fuel fetchOk st vb).1 =
      genPre ++ rest := by
  cases submitRes with
  | error e => exact ⟨[], by simp [generateVideo, hrr]⟩
  | ok op0 =>
    rcases hp : pollLoop fuel op0 oracle 1 with ⟨pevs, out⟩
    cases out with
    | fuelOut => exact ⟨pevs, by simp [generateVideo, hrr, hp]⟩
    | errored e => exact ⟨pevs, by simp [generateVideo, hrr, hp]⟩
    | finished finalOp =>
      cases hdl : downloadLink finalOp with
      | none => exact ⟨pevs, by simp [generateVideo, hrr, hp, hdl]⟩
      | some link =>
        cases fetchOk with
        | false =>
          exact ⟨pevs ++ [Event.progress "Downloading your generated video...",
            Event.fetchEv (link ++ "&key=" ++ apiKey)],
            by simp [generateVideo, hrr, hp, hdl]⟩
        | true =>
          exact ⟨pevs ++ [Event.progress "Downloading your generated video...",
            Event.fetchEv (link ++ "&key=" ++ apiKey)],
            by simp [generateVideo, hrr, hp, hdl]⟩

/-- The wait-adjacent messages of a full run trace: none before the loop is
reached, and exactly the loop rotation once it is. -/
theorem waitMsgs_generateVideo (apiKey : String) (rr : ReaderResult)
    (submitRes : Except String Operation) (oracle : Nat → Except String Operation)
    (fuel : Nat) (fetchOk : Bool) (st : String) (vb : Blob) :
    waitMsgs (generateVideo apiKey rr submitRes oracle fuel fetchOk st vb).1 = [] ∨
    ∃ op0, submitRes = Except.ok op0 ∧
      waitMsgs (generateVideo apiKey rr submitRes oracle fuel fetchOk st vb).1 =
        loopMsgs fuel op0 oracle 1 := by
  cases hrr : fileToBase64 rr with
  | error e => left; simp [generateVideo, hrr, waitMsgs_nil]
  | ok b =>
    cases submitRes with
    | error e =>
      left
      have htr : (generateVideo apiKey rr (Except.error e) oracle fuel fetchOk st vb).1 =
          genPre := by simp [generateVideo, hrr]
      rw [htr]
      rfl
    | ok op0 =>
      right
      refine ⟨op0, rfl, ?_⟩
      rcases hp : pollLoop fuel op0 oracle 1 with ⟨pevs, out⟩
      have hp1 : pevs = (pollLoop fuel op0 oracle 1).1 := by rw [hp]
      cases out with
      | fuelOut =>
        have htr : (generateVideo apiKey rr (Except.ok op0) oracle fuel fetchOk st vb).1 =
            genPre ++ pevs := by simp [generateVideo, hrr, hp]
        rw [htr, hp1, waitMsgs_genPre_append, waitMsgs_pollLoop_nil]
      | errored e =>
        have htr : (generateVideo apiKey rr (Except.ok op0) oracle fuel fetchOk st vb).1 =
            genPre ++ pevs := by simp [generateVideo, hrr, hp]
        rw [htr, hp1, waitMsgs_genPre_append, waitMsgs_pollLoop_nil]
      | finished finalOp =>
        cases hdl : downloadLink finalOp with
        | none =>
          have htr : (generateVideo apiKey rr (Except.ok op0) oracle fuel fetchOk st vb).1 =
              genPre ++ pevs := by simp [generateVideo, hrr, hp, hdl]
          rw [htr, hp1, waitMsgs_genPre_append, waitMsgs_pollLoop_nil]
        | some link =>
          have htr : (generateVideo apiKey rr (Except.ok op0) oracle fuel fetchOk st vb).1 =
              genPre ++ pevs ++ [Event.progress "Downloading your generated video...",
                Event.fetchEv (link ++ "&key=" ++ apiKey)] := by
            cases fetchOk <;> simp [generateVideo, hrr, hp, hdl]
          rw [htr, List.append_assoc, waitMsgs_genPre_append, hp1,
            waitMsgs_pollLoop fuel op0 oracle 1, waitMsgs_download_tail, List.append_nil]

/-- C6 counterexample: in a concrete run the trace contains exactly one
emission of the index-0 message and exactly one submit call, and the message
sits at position 1 while the submit call sits at position 2 — the index-0
message is emitted before the submit call has been performed, not after it. -/
theorem claim_first_message_counterexample :
    (generateVideo "K" (ReaderResult.str "data:a,b")
        (Except.ok { done := true, response := none })
        (fun _ => Except.ok { done := true, response := none }) 3 true "OK"
        { data := [] }).1 =
      [Event.encoded, Event.progress (LOADING_MESSAGES.getD 0 ""), Event.submitEv,
        Event.observe true] ∧
    ((generateVideo "K" (ReaderResult.str "data:a,b")
        (Except.ok { done := true, response := none })
        (fun _ => Except.ok { done := true, response := none }) 3 true "OK"
        { data := [] }).1).indexOf (Event.progress (LOADING_MESSAGES.getD 0 "")) = 1 ∧
    ((generateVideo "K" (ReaderResult.str "data:a,b")
        (Except.ok { done := true, response := none })
        (fun _ => Except.ok { done := true, response := none }) 3 true "OK"
        { data := [] }).1).indexOf Event.submitEv = 2 ∧
    ((generateVideo "K" (ReaderResult.str "data:a,b")
        (Except.ok { done := true, response := none })
        (fun _ => Except.ok { done := true, response := none }) 3 true "OK"
        { data := [] }).1).count (Event.progress (LOADING_MESSAGES.getD 0 "")) = 1 ∧
    ((generateVideo "K" (ReaderResult.str "data:a,b")
        (Except.ok { done := true, response := none })
        (fun _ => Except.ok { done := true, response := none }) 3 true "OK"
        { data := [] }).1).count Event.submitEv = 1 := by
  refine ⟨?_, ?_, ?_, ?_, ?_⟩ <;> decide

/-- C6 amended: in every run whose encode step resolves, the index-0 message
is emitted immediately after the encode step (trace position 1) and before the
submit call (trace position 2), hence also before the first poll (every poll
sits strictly later in the trace). -/
theorem claim_first_message_position (apiKey : String) (rr : ReaderResult)
    (submitRes : Except String Operation) (oracle : Nat → Except String Operation)
    (fuel : Nat) (fetchOk : Bool) (st : String) (vb : Blob) (b : Option String)
    (hrr : fileToBase64 rr = Except.ok b) :
    ((generateVideo apiKey rr submitRes oracle fuel fetchOk st vb).1)[0]? =
      some Event.encoded ∧
    ((generateVideo apiKey rr submitRes oracle fuel fetchOk st vb).1)[1]? =
      some (Event.progress (LOADING_MESSAGES.getD 0 "")) ∧
    ((generateVideo apiKey rr submitRes oracle fuel fetchOk st vb).1)[2]? =
      some Event.submitEv ∧
    (∀ j op', ((generateVideo apiKey rr submitRes oracle fuel fetchOk st vb).1)[j]? =
      some (Event.pollEv op') → 1 < j) := by
  obtain ⟨rest, hsh⟩ :=
    generateVideo_trace_shape apiKey rr submitRes oracle fuel fetchOk st vb b hrr
  rw [hsh]
  refine ⟨by simp [genPre], by simp [genPre], by simp [genPre], ?_⟩
  intro j op' hj
  by_contra hlt
  push_neg at hlt
  interval_cases j <;> simp [genPre] at hj

/-- C6 amended witness: a concrete run with the three leading positions. -/
theorem claim_first_message_position_witness :
    fileToBase64 (ReaderResult.str "data:a,b") = Except.ok (some "b") ∧
    ((generateVideo "K" (ReaderResult.str "data:a,b")
        (Except.ok { done := false, response := none })
        (fun _ => Except.ok { done := true, response := none }) 2 true "OK"
        { data := [] }).1)[0]? = some Event.encoded ∧
    ((generateVideo "K" (ReaderResult.str "data:a,b")
        (Except.ok { done := false, response := none })
        (fun _ => Except.ok { done := true, response := none }) 2 true "OK"
        { data := [] }).1)[1]? = some (Event.progress (LOADING_MESSAGES.getD 0 "")) ∧
    ((generateVideo "K" (ReaderResult.str "data:a,b")
        (Except.ok { done := false, response := none })
        (fun _ => Except.ok { done := true, response := none }) 2 true "OK"
        { data := [] }).1)[2]? = some Event.submitEv := by
  have h := claim_first_message_position "K" (ReaderResult.str "data:a,b")
    (Except.ok { done := false, response := none })
    (fun _ => Except.ok { done := true, response := none }) 2 true "OK"
    { data := [] } (some "b") rfl
  exact ⟨rfl, h.1, h.2.1, h.2.2.1⟩

/-- C2: the message emitted before the n-th ten-second wait of the poll loop
is the entry of the fixed ten-entry list at index n mod 10 (stated with the
waits indexed from i = 0, so the i-th wait-adjacent message is entry
(i + 1) mod 10), and the index-0 message is emitted before the first poll. -/
theorem claim_progress_rotation (apiKey : String) (rr : ReaderResult)
    (submitRes : Except String Operation) (oracle : Nat → Except String Operation)
    (fuel : Nat) (fetchOk : Bool) (st : String) (vb : Blob) :
    (∀ i m,
      (waitMsgs (generateVideo apiKey rr submitRes oracle fuel fetchOk st vb).1)[i]? =
        some m → m = LOADING_MESSAGES.getD ((i + 1) % LOADING_MESSAGES.length) "") ∧
    (∀ (j : Nat) (op' : Operation),
      ((generateVideo apiKey rr submitRes oracle fuel fetchOk st vb).1)[j]? =
        some (Event.pollEv op') →
      ∃ i : Nat, i < j ∧
        ((generateVideo apiKey rr submitRes oracle fuel fetchOk st vb).1)[i]? =
          some (Event.progress (LOADING_MESSAGES.getD 0 ""))) := by
  constructor
  · intro i m hm
    rcases waitMsgs_generateVideo apiKey rr submitRes oracle fuel fetchOk st vb with
      hw | ⟨op0, hsub, hw⟩
    · rw [hw] at hm
      simp at hm
    · rw [hw] at hm
      have hval := loopMsgs_get fuel op0 oracle 1 i m hm
      rw [Nat.add_comm 1 i] at hval
      exact hval
  · intro j op' hj
    cases hrr : fileToBase64 rr with
    | error e =>
      rw [show (generateVideo apiKey rr submitRes oracle fuel fetchOk st vb).1 = [] by
        simp [generateVideo, hrr]] at hj
      simp at hj
    | ok b =>
      obtain ⟨rest, hsh⟩ :=
        generateVideo_trace_shape apiKey rr submitRes oracle fuel fetchOk st vb b hrr
      rw [hsh] at hj ⊢
      refine ⟨1, ?_, ?_⟩
      · by_contra hlt
        push_neg at hlt
        interval_cases j <;> simp [genPre] at hj
      · simp [genPre]

/-- C2 witness: a concrete run whose first wait shows list entry 1, and whose
first poll (position 6) is preceded by the index-0 message (position 1). -/
theorem claim_progress_rotation_witness :
    ((waitMsgs (generateVideo "K" (ReaderResult.str "data:a,b")
        (Except.ok { done := false, response := none })
        (fun _ => Except.ok { done := true, response := none }) 2 true "OK"
        { data := [] }).1)[0]? = some "Contacting creative AI director..." ∧
      "Contacting creative AI director..." =
        LOADING_MESSAGES.getD ((0 + 1) % LOADING_MESSAGES.length) "") ∧
    (((generateVideo "K" (ReaderResult.str "data:a,b")
        (Except.ok { done := false, response := none })
        (fun _ => Except.ok { done := true, response := none }) 2 true "OK"
        { data := [] }).1)[6]? =
      some (Event.pollEv { done := false, response := none }) ∧
      ∃ i, i < 6 ∧ ((generateVideo "K" (ReaderResult.str "data:a,b")
        (Except.ok { done := false, response := none })
        (fun _ => Except.ok { done := true, response := none }) 2 true "OK"
        { data := [] }).1)[i]? = some (Event.progress (LOADING_MESSAGES.getD 0 ""))) := by
  have h := claim_progress_rotation "K" (ReaderResult.str "data:a,b")
    (Except.ok { done := false, response := none })
    (fun _ => Except.ok { done := true, response := none }) 2 true "OK" { data := [] }
  exact ⟨⟨by decide, h.1 0 "Contacting creative AI director..." (by decide)⟩,
    ⟨by decide, h.2 6 { done := false, response := none } (by decide)⟩⟩

/-- C1: in every run, a poll (`getVideosOperation`) is performed only on a
handle whose `done` flag is false — a handle observed `done = true` is never
polled — and a fetch of the result location occurs only after the loop
condition has observed `done = true` (the observation precedes the fetch in
the trace, witnessed by the ordered sublist). -/
theorem claim_poll_only_pending (apiKey : String) (rr : ReaderResult)
    (submitRes : Except String Operation) (oracle : Nat → Except String Operation)
    (fuel : Nat) (fetchOk : Bool) (st : String) (vb : Blob) :
    (∀ op', Event.pollEv op' ∈ (generateVideo apiKey rr submitRes oracle fuel fetchOk st vb).1 →
      op'.done = false) ∧
    (∀ u, Event.fetchEv u ∈ (generateVideo apiKey rr submitRes oracle fuel fetchOk st vb).1 →
      List.Sublist [Event.observe true, Event.fetchEv u]
        (generateVideo apiKey rr submitRes oracle fuel fetchOk st vb).1) := by
  constructor
  · intro op' h
    cases hrr : fileToBase64 rr with
    | error e => simp [generateVideo, hrr] at h
    | ok b =>
      cases submitRes with
      | error e => simp [generateVideo, hrr, genPre] at h
      | ok op0 =>
        rcases hp : pollLoop fuel op0 oracle 1 with ⟨pevs, out⟩
        have hp1 : pevs = (pollLoop fuel op0 oracle 1).1 := by rw [hp]
        have hmem : Event.pollEv op' ∈ pevs → op'.done = false := by
          rw [hp1]
          exact pollLoop_polls_not_done fuel op0 oracle 1 op'
        cases out with
        | fuelOut =>
          simp [generateVideo, hrr, hp, genPre] at h
          exact hmem h
        | errored e =>
          simp [generateVideo, hrr, hp, genPre] at h
          exact hmem h
        | finished finalOp =>
          cases hdl : downloadLink finalOp with
          | none =>
            simp [generateVideo, hrr, hp, hdl, genPre] at h
            exact hmem h
          | some link =>
            cases fetchOk with
            | false =>
              simp [generateVideo, hrr, hp, hdl, genPre] at h
              exact hmem h
            | true =>
              simp [generateVideo, hrr, hp, hdl, genPre] at h
              exact hmem h
  · intro u h
    cases hrr : fileToBase64 rr with
    | error e => simp [generateVideo, hrr] at h
    | ok b =>
      cases submitRes with
      | error e => simp [generateVideo, hrr, genPre] at h
      | ok op0 =>
        rcases hp : pollLoop fuel op0 oracle 1 with ⟨pevs, out⟩
        have hp1 : pevs = (pollLoop fuel op0 oracle 1).1 := by rw [hp]
        have hnof : Event.fetchEv u ∉ pevs := by
          rw [hp1]
          exact pollLoop_no_fetch fuel op0 oracle 1 u
        cases out with
        | fuelOut =>
          simp [generateVideo, hrr, hp, genPre] at h
          exact absurd h hnof
        | errored e =>
          simp [generateVideo, hrr, hp, genPre] at h
          exact absurd h hnof
        | finished finalOp =>
          cases hdl : downloadLink finalOp with
          | none =>
            simp [generateVideo, hrr, hp, hdl, genPre] at h
            exact absurd h hnof
          | some link =>
            obtain ⟨hdone, pre, hpre⟩ :=
              pollLoop_finished_shape fuel op0 oracle 1 finalOp (by rw [hp])
            have hpevs : pevs = pre ++ [Event.observe true] := by rw [hp1, hpre]
            have hsub : List.Sublist
                [Event.observe true, Event.fetchEv (link ++ "&key=" ++ apiKey)]
                (genPre ++ pevs ++ [Event.progress "Downloading your generated video...",
                  Event.fetchEv (link ++ "&key=" ++ apiKey)]) := by
              rw [hpevs]
              have hbase : List.Sublist
                  [Event.observe true, Event.fetchEv (link ++ "&key=" ++ apiKey)]
                  (Event.observe true ::
                    Event.progress "Downloading your generated video..." ::
                    Event.fetchEv (link ++ "&key=" ++ apiKey) :: []) :=
                List.Sublist.cons₂ _ (List.Sublist.cons _ (List.Sublist.refl _))
              have heq : genPre ++ (pre ++ [Event.observe true]) ++
                  [Event.progress "Downloading your generated video...",
                    Event.fetchEv (link ++ "&key=" ++ apiKey)] =
                  (genPre ++ pre) ++ (Event.observe true ::
                    Event.progress "Downloading your generated video..." ::
                    Event.fetchEv (link ++ "&key=" ++ apiKey) :: []) := by
                simp [List.append_assoc]
              rw [heq]
              exact hbase.trans (List.sublist_append_right (genPre ++ pre) _)
            cases fetchOk with
            | false =>
              have htr : (generateVideo apiKey rr (Except.ok op0) oracle fuel false st vb).1 =
                  genPre ++ pevs ++ [Event.progress "Downloading your generated video...",
                    Event.fetchEv (link ++ "&key=" ++ apiKey)] := by
                simp [generateVideo, hrr, hp, hdl]
              rw [htr] at h ⊢
              simp [genPre] at h
              rcases h with h | h
              · exact absurd h hnof
              · subst h
                exact hsub
            | true =>
              have htr : (generateVideo apiKey rr (Except.ok op0) oracle fuel true st vb).1 =
                  genPre ++ pevs ++ [Event.progress "Downloading your generated video...",
                    Event.fetchEv (link ++ "&key=" ++ apiKey)] := by
                simp [generateVideo, hrr, hp, hdl]
              rw [htr] at h ⊢
              simp [genPre] at h
              rcases h with h | h
              · exact absurd h hnof
              · subst h
                exact hsub

/-- C1 witness: a concrete run polls a pending handle and fetches only after
the true flag was observed. -/
theorem claim_poll_only_pending_witness :
    (Event.pollEv { done := false, response := none } ∈
      (generateVideo "K" (ReaderResult.str "data:a,b")
        (Except.ok { done := false, response := none })
        (fun _ => Except.ok { done := true, response := some { generatedVideos :=
          (some [{ video := some { uri := some "http://v?x=1" } }]) } }) 2 true "OK"
        { data := [] }).1 ∧
      ({ done := false, response := none } : Operation).done = false) ∧
    (Event.fetchEv "http://v?x=1&key=K" ∈
      (generateVideo "K" (ReaderResult.str "data:a,b")
        (Except.ok { done := false, response := none })
        (fun _ => Except.ok { done := true, response := some { generatedVideos :=
          (some [{ video := some { uri := some "http://v?x=1" } }]) } }) 2 true "OK"
        { data := [] }).1 ∧
      List.Sublist [Event.observe true, Event.fetchEv "http://v?x=1&key=K"]
        (generateVideo "K" (ReaderResult.str "data:a,b")
          (Except.ok { done := false, response := none })
          (fun _ => Except.ok { done := true, response := some { generatedVideos :=
            (some [{ video := some { uri := some "http://v?x=1" } }]) } }) 2 true "OK"
          { data := [] }).1) := by
  have h := claim_poll_only_pending "K" (ReaderResult.str "data:a,b")
    (Except.ok { done := false, response := none })
    (fun _ => Except.ok { done := true, response := some { generatedVideos :=
      (some [{ video := some { uri := some "http://v?x=1" } }]) } }) 2 true "OK"
    { data := [] }
  exact ⟨⟨by decide, h.1 _ (by decide)⟩, ⟨by decide, h.2 _ (by decide)⟩⟩

/-- C3: when the poll loop finishes on a done handle, a missing download link
(the first descriptor carries no URI) makes `generateVideo` throw the
no-result error and attempt no fetch; a present link is the one (and only one)
URL fetched, credential appended. -/
theorem claim_no_result_error (apiKey : String) (rr : ReaderResult)
    (oracle : Nat → Except String Operation) (fuel : Nat) (fetchOk : Bool)
    (st : String) (vb : Blob) (b : Option String) (submitOp finalOp : Operation)
    (pevs : List Event)
    (hrr : fileToBase64 rr = Except.ok b)
    (hp : pollLoop fuel submitOp oracle 1 = (pevs, PollOutcome.finished finalOp)) :
    (downloadLink finalOp = none →
      (generateVideo apiKey rr (Except.ok submitOp) oracle fuel fetchOk st vb).2 =
        some (Except.error
          "Video generation completed, but no download link was found.") ∧
      ∀ u, Event.fetchEv u ∉
        (generateVideo apiKey rr (Except.ok submitOp) oracle fuel fetchOk st vb).1) ∧
    (∀ link, downloadLink finalOp = some link →
      Event.fetchEv (link ++ "&key=" ++ apiKey) ∈
        (generateVideo apiKey rr (Except.ok submitOp) oracle fuel fetchOk st vb).1 ∧
      ∀ u, Event.fetchEv u ∈
          (generateVideo apiKey rr (Except.ok submitOp) oracle fuel fetchOk st vb).1 →
        u = link ++ "&key=" ++ apiKey) := by
  have hnof : ∀ u, Event.fetchEv u ∉ pevs := by
    intro u
    have hp1 : pevs = (pollLoop fuel submitOp oracle 1).1 := by rw [hp]
    rw [hp1]
    exact pollLoop_no_fetch fuel submitOp oracle 1 u
  constructor
  · intro hdl
    constructor
    · simp [generateVideo, hrr, hp, hdl]
    · intro u hu
      simp [generateVideo, hrr, hp, hdl, genPre] at hu
      exact hnof u hu
  · intro link hdl
    cases fetchOk with
    | false =>
      constructor
      · simp [generateVideo, hrr, hp, hdl, genPre]
      · intro u hu
        simp [generateVideo, hrr, hp, hdl, genPre] at hu
        rcases hu with hu | hu
        · exact absurd hu (hnof u)
        · exact hu
    | true =>
      constructor
      · simp [generateVideo, hrr, hp, hdl, genPre]
      · intro u hu
        simp [generateVideo, hrr, hp, hdl, genPre] at hu
        rcases hu with hu | hu
        · exact absurd hu (hnof u)
        · exact hu

/-- C3 witness: a concrete run completing with an empty response yields the
no-result error. -/
theorem claim_no_result_error_witness :
    fileToBase64 (ReaderResult.str "data:a,b") = Except.ok (some "b") ∧
    pollLoop 2 { done := false, response := none }
        (fun _ => Except.ok { done := true, response := none }) 1 =
      ([Event.observe false,
        Event.progress (LOADING_MESSAGES.getD (1 % LOADING_MESSAGES.length) ""),
        Event.waitEv, Event.pollEv { done := false, response := none },
        Event.observe true],
       PollOutcome.finished { done := true, response := none }) ∧
    downloadLink { done := true, response := none } = none ∧
    (generateVideo "K" (ReaderResult.str "data:a,b")
        (Except.ok { done := false, response := none })
        (fun _ => Except.ok { done := true, response := none }) 2 true "OK"
        { data := [] }).2 =
      some (Except.error
        "Video generation completed, but no download link was found.") := by
  have h := claim_no_result_error "K" (ReaderResult.str "data:a,b")
    (fun _ => Except.ok { done := true, response := none }) 2 true "OK"
    { data := [] } (some "b") { done := false, response := none }
    { done := true, response := none }
    [Event.observe false,
      Event.progress (LOADING_MESSAGES.getD (1 % LOADING_MESSAGES.length) ""),
      Event.waitEv, Event.pollEv { done := false, response := none },
      Event.observe true] rfl (by decide)
  exact ⟨rfl, by decide, rfl, (h.1 rfl).1⟩

/-- C9: the fetched URL is the resolved location with the credential appended
as a query qualifier; a non-ok response makes the run throw the download error
carrying the transport status text, and an ok response resolves with the blob
wrapped into a locally dereferenceable reference. -/
theorem claim_download_error (apiKey : String) (rr : ReaderResult)
    (oracle : Nat → Except String Operation) (fuel : Nat) (fetchOk : Bool)
    (st : String) (vb : Blob) (b : Option String) (submitOp finalOp : Operation)
    (pevs : List Event) (link : String)
    (hrr : fileToBase64 rr = Except.ok b)
    (hp : pollLoop fuel submitOp oracle 1 = (pevs, PollOutcome.finished finalOp))
    (hdl : downloadLink finalOp = some link) :
    Event.fetchEv (link ++ "&key=" ++ apiKey) ∈
      (generateVideo apiKey rr (Except.ok submitOp) oracle fuel fetchOk st vb).1 ∧
    (fetchOk = false →
      (generateVideo apiKey rr (Except.ok submitOp) oracle fuel fetchOk st vb).2 =
        some (Except.error ("Failed to download video: " ++ st))) ∧
    (fetchOk = true →
      (generateVideo apiKey rr (Except.ok submitOp) oracle fuel fetchOk st vb).2 =
        some (Except.ok (createObjectURL vb))) := by
  refine ⟨?_, ?_, ?_⟩
  · cases fetchOk <;> simp [generateVideo, hrr, hp, hdl, genPre]
  · intro hf
    subst hf
    simp [generateVideo, hrr, hp, hdl]
  · intro hf
    subst hf
    simp [generateVideo, hrr, hp, hdl]

/-- C9 witness: a concrete failed fetch surfaces the status text, and the
fetched URL carries the appended key. -/
theorem claim_download_error_witness :
    fileToBase64 (ReaderResult.str "data:a,b") = Except.ok (some "b") ∧
    downloadLink { done := true, response := some { generatedVideos :=
      (some [{ video := some { uri := some "http://v?x=1" } }]) } } =
      some "http://v?x=1" ∧
    Event.fetchEv "http://v?x=1&key=K" ∈
      (generateVideo "K" (ReaderResult.str "data:a,b")
        (Except.ok { done := true, response := some { generatedVideos :=
          (some [{ video := some { uri := some "http://v?x=1" } }]) } })
        (fun _ => Except.error "unused") 0 false "Forbidden" { data := [] }).1 ∧
    (generateVideo "K" (ReaderResult.str "data:a,b")
        (Except.ok { done := true, response := some { generatedVideos :=
          (some [{ video := some { uri := some "http://v?x=1" } }]) } })
        (fun _ => Except.error "unused") 0 false "Forbidden" { data := [] }).2 =
      some (Except.error ("Failed to download video: " ++ "Forbidden")) := by
  have h := claim_download_error "K" (ReaderResult.str "data:a,b")
    (fun _ => Except.error "unused") 0 false "Forbidden" { data := [] } (some "b")
    { done := true, response := some { generatedVideos :=
      (some [{ video := some { uri := some "http://v?x=1" } }]) } }
    { done := true, response := some { generatedVideos :=
      (some [{ video := some { uri := some "http://v?x=1" } }]) } }
    [Event.observe true] "http://v?x=1" rfl (by decide) (by decide)
  exact ⟨rfl, by decide, h.1, h.2.1 rfl⟩
